import Mathlib

/-!
Verification of the request-handling layer of the task-list API
(`app/routes.py`): a shallow embedding of the helper functions and the
task/goal endpoint handlers, together with theorems about identifier
validation, sorting, completion toggling, goal linking and deletion.

The `Task`/`Goal` records and their serializers live in model files that are
not part of the embedded source; those are modelled from the spec (sections
3, 4.3 and 4.4) and are marked as such in their doc comments.
-/

namespace TaskListApi

/-- Timestamps (`datetime` values) are modelled abstractly as integers. -/
abbrev Timestamp := Int

/-- JSON values as they appear in request and response bodies. -/
inductive Json where
  | null
  | bool (b : Bool)
  | num (n : Int)
  | str (s : String)
  | arr (elems : List Json)
  | obj (fields : List (String × Json))

/-- Look up a key of a JSON object; `none` on non-objects or absent keys. -/
def Json.getKey : Json → String → Option Json
  | .obj kvs, k => (kvs.find? (fun kv => kv.1 == k)).map (fun kv => kv.2)
  | _, _ => none

/-- Modelled from the spec (section 3), the `Task` model file being outside
the embedded source: identifier, title, description, nullable completion
timestamp, nullable goal foreign key. -/
structure Task where
  task_id : Nat
  title : String
  description : String
  completed_at : Option Timestamp
  goal_id : Option Int

/-- Modelled from the spec (section 3), the `Goal` model file being outside
the embedded source: identifier and title. -/
structure Goal where
  goal_id : Nat
  title : String

/-- Modelled from the spec (section 3): the relational store holds the task
and goal records, in insertion order, plus the autoincrement counters that
assign primary keys. -/
structure Store where
  tasks : List Task
  goals : List Goal
  next_task_id : Nat
  next_goal_id : Nat

/-- A raw identifier as it reaches `validate_object`: a URL path segment
(always a string) or an element of the JSON `task_ids` list (a number, a
string, or some other JSON value on which `int(...)` raises). -/
inductive IdVal where
  | strId (s : String)
  | numId (n : Int)
  | otherId

/-- Accumulate decimal digits; `none` as soon as a non-digit appears. -/
def digitsAux : List Char → Nat → Option Nat
  | [], acc => some acc
  | c :: cs, acc => if c.isDigit then digitsAux cs (acc * 10 + (c.toNat - 48)) else none

/-- Parse a non-empty all-digit character list as a natural number. -/
def parseDec : List Char → Option Nat
  | [] => none
  | c :: cs => digitsAux (c :: cs) 0

/-- Parse a string as an optionally negated decimal integer. -/
def strToInt? (s : String) : Option Int :=
  match s.data with
  | '-' :: cs => (parseDec cs).map (fun n => -(n : Int))
  | cs => (parseDec cs).map (fun n => (n : Int))

/-- The `int(object_id)` conversion in `validate_object`: numbers convert to
themselves, strings are parsed as optionally signed decimal integers, other
values raise (modelled as `none`, caught by the bare `except`). -/
def pyInt : IdVal → Option Int
  | .strId s => strToInt? s
  | .numId n => some n
  | .otherId => none

/-- Text of an identifier value, used in error messages. -/
def IdVal.text : IdVal → String
  | .strId s => s
  | .numId n => toString n
  | .otherId => "<value>"

/-- A response produced by `abort(make_response(body, status))`. -/
structure AbortResp where
  status : Nat
  body : Json

/-- Outcome of a call to `validate_object`: the fetched task or goal, an
aborted 400/404 response, or the unassigned-variable error hit when
`object_type` is neither "task" nor "goal". -/
inductive ValidateResult where
  | okTask (t : Task)
  | okGoal (g : Goal)
  | aborted (r : AbortResp)
  | nameError

/-- `Task.query.get(id)`: the stored task with the given primary key. -/
def Task.queryGet (s : Store) (i : Int) : Option Task :=
  s.tasks.find? (fun t => ((t.task_id : Int) == i))

/-- `Goal.query.get(id)`: the stored goal with the given primary key. -/
def Goal.queryGet (s : Store) (i : Int) : Option Goal :=
  s.goals.find? (fun g => ((g.goal_id : Int) == i))

/-- `validate_object(object_id, object_type)`: parse the id with `int(...)`
(400 on failure), fetch by primary key for the given kind (404 when absent),
return the entity; with any other kind tag the variable `goal_or_task` is
never assigned and the function raises. -/
def validate_object (s : Store) (object_id : IdVal) (object_type : String) : ValidateResult :=
  match pyInt object_id with
  | none => .aborted ⟨400, .obj [("message", .str ("Object " ++ object_id.text ++ " invalid"))]⟩
  | some i =>
    if object_type == "task" then
      match Task.queryGet s i with
      | some t => .okTask t
      | none => .aborted ⟨404, .obj [("message", .str ("Object " ++ toString i ++ " not found"))]⟩
    else if object_type == "goal" then
      match Goal.queryGet s i with
      | some g => .okGoal g
      | none => .aborted ⟨404, .obj [("message", .str ("Object " ++ toString i ++ " not found"))]⟩
    else
      .nameError

/-- What a `requests.post` call can do: hand back a response object carrying
some HTTP status (requests does not raise on a non-2xx status), or raise a
transport exception (ConnectionError, Timeout, TLS failure). -/
inductive HttpResult where
  | response (status : Nat)
  | transportError

/-- Environment of the Slack call: the optional `SLACK_TOKEN` from the
process environment, and the network modelled as what the `requests.post`
call does for a given message text and authorization header — a response
with some status, or a raised transport exception. A `None` Authorization
header is dropped by requests rather than crashing, so an absent token
still yields an ordinary (failing) response. -/
structure NotifierEnv where
  slack_token : Option String
  network : String → Option String → HttpResult

/-- `post_to_slack(title)`: one outbound POST announcing completion; the
response object is ignored and nothing is returned, but a transport
exception raised by `requests.post` propagates — nothing here catches it. -/
def post_to_slack (env : NotifierEnv) (title : String) : HttpResult :=
  env.network ("Someone just completed the task " ++ title) env.slack_token

/-- `ordered_tasks_query(sort_method)`: order by title ascending for "asc",
descending for "desc", and the store's natural order otherwise. -/
def ordered_tasks_query (s : Store) (sort_method : Option String) : List Task :=
  if sort_method == some "asc" then
    s.tasks.insertionSort (fun a b => a.title ≤ b.title)
  else if sort_method == some "desc" then
    s.tasks.insertionSort (fun a b => b.title ≤ a.title)
  else
    s.tasks

/-- `ordered_goals_query(sort_method)`: order by title ascending for "asc",
descending for "desc", and the store's natural order otherwise. -/
def ordered_goals_query (s : Store) (sort_method : Option String) : List Goal :=
  if sort_method == some "asc" then
    s.goals.insertionSort (fun a b => a.title ≤ b.title)
  else if sort_method == some "desc" then
    s.goals.insertionSort (fun a b => b.title ≤ a.title)
  else
    s.goals

/-- Modelled from the spec (section 4.3 serialization rule): `to_dict` gives
`{id, title, description, is_complete}` with `is_complete` true iff
`completed_at` is non-null, and `goal_id` included when set. -/
def Task.to_dict (t : Task) : Json :=
  .obj ([("id", .num (t.task_id : Int)), ("title", .str t.title),
         ("description", .str t.description),
         ("is_complete", .bool t.completed_at.isSome)] ++
        (match t.goal_id with
         | some g => [("goal_id", .num g)]
         | none => []))

/-- Modelled from the spec (section 4.4): goals serialize as `{id, title}`. -/
def Goal.to_dict (g : Goal) : Json :=
  .obj [("id", .num (g.goal_id : Int)), ("title", .str g.title)]

/-- Modelled from the spec (sections 4.4 and 8): `to_dict_advanced` extends
the goal serialization with the serialized tasks whose `goal_id` equals the
goal's id. -/
def Goal.to_dict_advanced (s : Store) (g : Goal) : Json :=
  .obj [("id", .num (g.goal_id : Int)), ("title", .str g.title),
        ("tasks", .arr ((s.tasks.filter
          (fun t => t.goal_id == some (g.goal_id : Int))).map Task.to_dict))]

/-- Result of a request handler: a response with a status, JSON body and the
store after the request, or a crash (an unhandled exception, surfaced by the
framework as a 500 with no JSON body). -/
inductive Outcome where
  | resp (status : Nat) (body : Json) (store : Store)
  | crash (store : Store)

/-- The store after an outcome. -/
def Outcome.store : Outcome → Store
  | .resp _ _ s => s
  | .crash s => s

/-- The status of an outcome (500 for a crash). -/
def Outcome.status : Outcome → Nat
  | .resp st _ _ => st
  | .crash _ => 500

/-- Apply `f` to every stored task with the given primary key, as the ORM
commit does when the fetched row is mutated. -/
def Store.updateTask (s : Store) (i : Nat) (f : Task → Task) : Store :=
  { s with tasks := s.tasks.map (fun u => if u.task_id == i then f u else u) }

/-- Request body for task creation and update, restricted to the keys the
handlers read: an outer `none` means the key is absent; for `completed_at`
the inner value is the (possibly null) timestamp supplied verbatim. -/
structure TaskBody where
  title : Option String
  description : Option String
  completed_at : Option (Option Timestamp)

/-- Request body for goal creation and update. -/
structure GoalBody where
  title : Option String

/-- Request body for the goal-linking endpoint: `none` when the `task_ids`
key is absent from the JSON object. -/
structure LinkBody where
  task_ids : Option (List IdVal)

/-- `GET /tasks`: list all tasks per the sort parameter, serialized. -/
def get_tasks (s : Store) (sort : Option String) : Outcome :=
  .resp 200 (.arr ((ordered_tasks_query s sort).map Task.to_dict)) s

/-- `POST /tasks`: require `title` and `description` (400 "Invalid data"
otherwise, nothing persisted); take `completed_at` verbatim when present;
persist and return the created task with status 201. -/
def post_task (s : Store) (body : TaskBody) : Outcome :=
  match body.title, body.description with
  | some ti, some de =>
    let newTask : Task :=
      { task_id := s.next_task_id, title := ti, description := de,
        completed_at := body.completed_at.getD none, goal_id := none }
    .resp 201 (.obj [("task", newTask.to_dict)])
      { s with tasks := s.tasks ++ [newTask], next_task_id := s.next_task_id + 1 }
  | _, _ => .resp 400 (.obj [("details", .str "Invalid data")]) s

/-- `GET /tasks/<task_id>`: resolve and return the serialized task. -/
def get_one_task (s : Store) (task_id : String) : Outcome :=
  match validate_object s (.strId task_id) "task" with
  | .okTask t => .resp 200 (.obj [("task", t.to_dict)]) s
  | .aborted r => .resp r.status r.body s
  | _ => .crash s

/-- `PUT /tasks/<task_id>`: resolve, require `title` and `description`,
overwrite them (and `completed_at` when present), persist. -/
def update_task (s : Store) (task_id : String) (body : TaskBody) : Outcome :=
  match validate_object s (.strId task_id) "task" with
  | .okTask t =>
    match body.title, body.description with
    | some ti, some de =>
      let upd : Task → Task := fun u =>
        { u with title := ti, description := de,
                 completed_at := body.completed_at.getD u.completed_at }
      .resp 200 (.obj [("task", (upd t).to_dict)]) (s.updateTask t.task_id upd)
    | _, _ => .resp 400 (.obj [("details", .str "Invalid data")]) s
  | .aborted r => .resp r.status r.body s
  | _ => .crash s

/-- `DELETE /tasks/<task_id>`: resolve, remove from the store, confirm. -/
def delete_task (s : Store) (task_id : String) : Outcome :=
  match validate_object s (.strId task_id) "task" with
  | .okTask t =>
    .resp 200 (.obj [("details", .str ("Task " ++ toString t.task_id ++ " \"" ++
        t.title ++ "\" successfully deleted"))])
      { s with tasks := s.tasks.filter (fun u => u.task_id != t.task_id) }
  | .aborted r => .resp r.status r.body s
  | _ => .crash s

/-- `PATCH /tasks/<task_id>/mark_complete`: resolve, read the body (unused),
set `completed_at` to the current timestamp, commit, post to Slack with the
response object discarded, return the serialized task. The Slack call sits
after the commit and outside any `try`: a response of any HTTP status is
ignored, but a raised transport exception propagates out of the handler
(the framework turns it into a 500) with the completion already committed. -/
def complete_task (s : Store) (now : Timestamp) (env : NotifierEnv)
    (task_id : String) (body : Json) : Outcome :=
  match validate_object s (.strId task_id) "task" with
  | .okTask t =>
    let t2 : Task := { t with completed_at := some now }
    let s2 : Store := s.updateTask t.task_id (fun u => { u with completed_at := some now })
    match post_to_slack env t2.title with
    | .transportError => .crash s2
    | .response _ => .resp 200 (.obj [("task", t2.to_dict)]) s2
  | .aborted r => .resp r.status r.body s
  | _ => .crash s

/-- `PATCH /tasks/<task_id>/mark_incomplete`: resolve, read the body
(unused), clear `completed_at`, commit, return the serialized task. -/
def incomplete_task (s : Store) (task_id : String) (body : Json) : Outcome :=
  match validate_object s (.strId task_id) "task" with
  | .okTask t =>
    let t2 : Task := { t with completed_at := none }
    .resp 200 (.obj [("task", t2.to_dict)])
      (s.updateTask t.task_id (fun u => { u with completed_at := none }))
  | .aborted r => .resp r.status r.body s
  | _ => .crash s

/-- `GET /goals`: list all goals per the sort parameter, serialized. -/
def get_goals (s : Store) (sort : Option String) : Outcome :=
  .resp 200 (.arr ((ordered_goals_query s sort).map Goal.to_dict)) s

/-- `POST /goals`: require `title` (400 otherwise); persist and return the
created goal with status 201. -/
def post_goal (s : Store) (body : GoalBody) : Outcome :=
  match body.title with
  | some ti =>
    let newGoal : Goal := { goal_id := s.next_goal_id, title := ti }
    .resp 201 (.obj [("goal", newGoal.to_dict)])
      { s with goals := s.goals ++ [newGoal], next_goal_id := s.next_goal_id + 1 }
  | none => .resp 400 (.obj [("details", .str "Invalid data")]) s

/-- `GET /goals/<goal_id>`: resolve and return the serialized goal. -/
def get_one_goal (s : Store) (goal_id : String) : Outcome :=
  match validate_object s (.strId goal_id) "goal" with
  | .okGoal g => .resp 200 (.obj [("goal", g.to_dict)]) s
  | .aborted r => .resp r.status r.body s
  | _ => .crash s

/-- `PUT /goals/<goal_id>`: resolve, require `title`, overwrite it, persist. -/
def update_goal (s : Store) (goal_id : String) (body : GoalBody) : Outcome :=
  match validate_object s (.strId goal_id) "goal" with
  | .okGoal g =>
    match body.title with
    | some ti =>
      .resp 200 (.obj [("goal", Goal.to_dict { g with title := ti })])
        { s with goals := s.goals.map (fun x =>
            if x.goal_id == g.goal_id then { x with title := ti } else x) }
    | none => .resp 400 (.obj [("details", .str "Invalid data")]) s
  | .aborted r => .resp r.status r.body s
  | _ => .crash s

/-- `DELETE /goals/<goal_id>`: resolve, remove the goal record from the
store (the task table is not touched: the `Goal` model declares no cascade,
per the spec, section 3), confirm. -/
def delete_goal (s : Store) (goal_id : String) : Outcome :=
  match validate_object s (.strId goal_id) "goal" with
  | .okGoal g =>
    .resp 200 (.obj [("details", .str ("Goal " ++ toString g.goal_id ++ " \"" ++
        g.title ++ "\" successfully deleted"))])
      { s with goals := s.goals.filter (fun x => x.goal_id != g.goal_id) }
  | .aborted r => .resp r.status r.body s
  | _ => .crash s

/-- Step result of the `[validate_object(task_id, "task") for task_id in
task_ids]` comprehension: all tasks resolved, an abort at the first failing
id, or the unassigned-variable error (never hit for the "task" tag). -/
inductive LinkStep where
  | ok (ts : List Task)
  | failed (r : AbortResp)
  | broke

/-- The comprehension resolving each element of `task_ids` left to right,
aborting the whole request at the first failure. -/
def validateTaskList (s : Store) : List IdVal → LinkStep
  | [] => .ok []
  | x :: xs =>
    match validate_object s x "task" with
    | .okTask t =>
      match validateTaskList s xs with
      | .ok ts => .ok (t :: ts)
      | r => r
    | .aborted r => .failed r
    | _ => .broke

/-- `POST /goals/<goal_id>/tasks`: resolve the goal; read `task_ids` (the
`except ValueError` does not catch the `KeyError` raised when the key is
absent, so that case crashes); resolve every task id before any mutation;
set each resolved task's `goal_id` to `int(goal_id)`; commit; return the
goal id and the linked task ids. -/
def post_tasks_to_goal (s : Store) (goal_id : String) (body : LinkBody) : Outcome :=
  match validate_object s (.strId goal_id) "goal" with
  | .okGoal _ =>
    match body.task_ids with
    | none => .crash s
    | some ids =>
      match validateTaskList s ids with
      | .failed r => .resp r.status r.body s
      | .broke => .crash s
      | .ok ts =>
        match pyInt (.strId goal_id) with
        | none => .crash s
        | some gid =>
          .resp 200 (.obj [("id", .num gid),
              ("task_ids", .arr (ts.map (fun t => .num (t.task_id : Int))))])
            { s with tasks := s.tasks.map (fun u =>
                if ts.any (fun t => t.task_id == u.task_id) then
                  { u with goal_id := some gid }
                else u) }
  | .aborted r => .resp r.status r.body s
  | _ => .crash s

/-- `GET /goals/<goal_id>/tasks`: resolve the goal and return its extended
serialization. -/
def get_tasks_from_goal (s : Store) (goal_id : String) : Outcome :=
  match validate_object s (.strId goal_id) "goal" with
  | .okGoal g => .resp 200 (g.to_dict_advanced s) s
  | .aborted r => .resp r.status r.body s
  | _ => .crash s

/-- The `object_type` tag at each call of `validate_object` in the routes
module, in source order: `get_one_task`, `update_task`, `delete_task`,
`complete_task`, `incomplete_task`, `get_one_goal`, `update_goal`,
`delete_goal`, `post_tasks_to_goal` (the goal, then every element of
`task_ids`), `get_tasks_from_goal`. -/
def validateCallSiteTags : List String :=
  ["task", "task", "task", "task", "task",
   "goal", "goal", "goal", "goal", "task", "goal"]

/-- The store after running mark-complete then mark-incomplete on the same
task id. -/
def markPair (s : Store) (now : Timestamp) (env : NotifierEnv)
    (task_id : String) (body : Json) : Store :=
  (incomplete_task ((complete_task s now env task_id body).store) task_id body).store

/-- A small concrete store used by the witnesses: two tasks (the second one
completed and linked to the goal) and one goal. -/
def exStore : Store :=
  { tasks := [⟨1, "Buy milk", "2%", none, none⟩, ⟨2, "Walk dog", "am", some 7, some 1⟩],
    goals := [⟨1, "Errands"⟩],
    next_task_id := 3, next_goal_id := 2 }

/-- A concrete notifier environment with no `SLACK_TOKEN` configured and a
webhook that answers every call with a failing HTTP status. -/
def exEnv : NotifierEnv := ⟨none, fun _ _ => .response 404⟩

/-- A concrete notifier environment whose webhook call raises a transport
exception. -/
def exEnvRaise : NotifierEnv := ⟨none, fun _ _ => .transportError⟩

instance : IsTotal Task (fun a b => a.title ≤ b.title) :=
  ⟨fun a b => le_total a.title b.title⟩

instance : IsTrans Task (fun a b => a.title ≤ b.title) :=
  ⟨fun _ _ _ h h2 => le_trans h h2⟩

instance : IsTotal Task (fun a b => b.title ≤ a.title) :=
  ⟨fun a b => le_total b.title a.title⟩

instance : IsTrans Task (fun a b => b.title ≤ a.title) :=
  ⟨fun _ _ _ h h2 => le_trans h2 h⟩

instance : IsTotal Goal (fun a b => a.title ≤ b.title) :=
  ⟨fun a b => le_total a.title b.title⟩

instance : IsTrans Goal (fun a b => a.title ≤ b.title) :=
  ⟨fun _ _ _ h h2 => le_trans h h2⟩

instance : IsTotal Goal (fun a b => b.title ≤ a.title) :=
  ⟨fun a b => le_total b.title a.title⟩

instance : IsTrans Goal (fun a b => b.title ≤ a.title) :=
  ⟨fun _ _ _ h h2 => le_trans h2 h⟩

/-- Unfolding lemma: resolving with the "task" tag and an unparseable id. -/
theorem validate_task_invalid (s : Store) (oid : IdVal) (h : pyInt oid = none) :
    validate_object s oid "task" =
      .aborted ⟨400, .obj [("message", .str ("Object " ++ oid.text ++ " invalid"))]⟩ := by
  simp [validate_object, h]

/-- Unfolding lemma: resolving with the "task" tag and a parseable id with no
matching record. -/
theorem validate_task_notFound (s : Store) (oid : IdVal) (i : Int)
    (h : pyInt oid = some i) (hq : Task.queryGet s i = none) :
    validate_object s oid "task" =
      .aborted ⟨404, .obj [("message", .str ("Object " ++ toString i ++ " not found"))]⟩ := by
  simp [validate_object, h, hq]

/-- Unfolding lemma: resolving with the "task" tag and a matching record. -/
theorem validate_task_found (s : Store) (oid : IdVal) (i : Int) (t : Task)
    (h : pyInt oid = some i) (hq : Task.queryGet s i = some t) :
    validate_object s oid "task" = .okTask t := by
  simp [validate_object, h, hq]

/-- Unfolding lemma: resolving with the "goal" tag and an unparseable id. -/
theorem validate_goal_invalid (s : Store) (oid : IdVal) (h : pyInt oid = none) :
    validate_object s oid "goal" =
      .aborted ⟨400, .obj [("message", .str ("Object " ++ oid.text ++ " invalid"))]⟩ := by
  simp [validate_object, h]

/-- Unfolding lemma: resolving with the "goal" tag and a parseable id with no
matching record. -/
theorem validate_goal_notFound (s : Store) (oid : IdVal) (i : Int)
    (h : pyInt oid = some i) (hq : Goal.queryGet s i = none) :
    validate_object s oid "goal" =
      .aborted ⟨404, .obj [("message", .str ("Object " ++ toString i ++ " not found"))]⟩ := by
  simp [validate_object, h, hq]

/-- Unfolding lemma: resolving with the "goal" tag and a matching record. -/
theorem validate_goal_found (s : Store) (oid : IdVal) (i : Int) (g : Goal)
    (h : pyInt oid = some i) (hq : Goal.queryGet s i = some g) :
    validate_object s oid "goal" = .okGoal g := by
  simp [validate_object, h, hq]

/-- With the "task" tag, resolution either fetches a task or aborts with a
400 or 404 response. -/
theorem validate_task_cases (s : Store) (oid : IdVal) :
    (∃ t, validate_object s oid "task" = .okTask t) ∨
    (∃ r, validate_object s oid "task" = .aborted r ∧ (r.status = 400 ∨ r.status = 404)) := by
  cases hpi : pyInt oid with
  | none => exact .inr ⟨_, validate_task_invalid s oid hpi, .inl rfl⟩
  | some i =>
    cases hq : Task.queryGet s i with
    | none => exact .inr ⟨_, validate_task_notFound s oid i hpi hq, .inr rfl⟩
    | some t => exact .inl ⟨t, validate_task_found s oid i t hpi hq⟩

/-- With the "goal" tag, resolution either fetches a goal or aborts with a
400 or 404 response. -/
theorem validate_goal_cases (s : Store) (oid : IdVal) :
    (∃ g, validate_object s oid "goal" = .okGoal g) ∨
    (∃ r, validate_object s oid "goal" = .aborted r ∧ (r.status = 400 ∨ r.status = 404)) := by
  cases hpi : pyInt oid with
  | none => exact .inr ⟨_, validate_goal_invalid s oid hpi, .inl rfl⟩
  | some i =>
    cases hq : Goal.queryGet s i with
    | none => exact .inr ⟨_, validate_goal_notFound s oid i hpi hq, .inr rfl⟩
    | some g => exact .inl ⟨g, validate_goal_found s oid i g hpi hq⟩

/-- Inversion: a successful "task" resolution comes from a parseable id and a
matching stored record. -/
theorem validate_task_ok_inv (s : Store) (oid : IdVal) (t : Task)
    (h : validate_object s oid "task" = .okTask t) :
    ∃ i, pyInt oid = some i ∧ Task.queryGet s i = some t := by
  rcases validate_task_cases s oid with ⟨t2, h2⟩ | ⟨r, h2, _⟩
  · cases hpi : pyInt oid with
    | none => rw [validate_task_invalid s oid hpi] at h; cases h
    | some i =>
      cases hq : Task.queryGet s i with
      | none => rw [validate_task_notFound s oid i hpi hq] at h; cases h
      | some t3 =>
        rw [validate_task_found s oid i t3 hpi hq] at h
        cases h
        exact ⟨i, rfl, hq⟩
  · rw [h2] at h; cases h

/-- Inversion: a successful "goal" resolution comes from a parseable id and a
matching stored record. -/
theorem validate_goal_ok_inv (s : Store) (oid : IdVal) (g : Goal)
    (h : validate_object s oid "goal" = .okGoal g) :
    ∃ i, pyInt oid = some i ∧ Goal.queryGet s i = some g := by
  cases hpi : pyInt oid with
  | none => rw [validate_goal_invalid s oid hpi] at h; cases h
  | some i =>
    cases hq : Goal.queryGet s i with
    | none => rw [validate_goal_notFound s oid i hpi hq] at h; cases h
    | some g2 =>
      rw [validate_goal_found s oid i g2 hpi hq] at h
      cases h
      exact ⟨i, rfl, hq⟩

/-- C2: for either entity kind, an identifier string that does not parse as
an integer makes `validate_object` abort with a 400 response (never a 404);
a parseable identifier with no matching record of that kind aborts with 404;
and on success the stored entity itself is returned. The resolver takes the
store and returns a result without producing a new store, so it mutates
nothing by construction. -/
theorem validate_object_resolver_spec (s : Store) (idStr : String) (ty : String)
    (hty : ty = "task" ∨ ty = "goal") :
    (pyInt (.strId idStr) = none →
      validate_object s (.strId idStr) ty =
        .aborted ⟨400, .obj [("message", .str ("Object " ++ idStr ++ " invalid"))]⟩) ∧
    (∀ i, pyInt (.strId idStr) = some i →
      (ty = "task" →
        (Task.queryGet s i = none →
          validate_object s (.strId idStr) ty =
            .aborted ⟨404, .obj [("message", .str ("Object " ++ toString i ++ " not found"))]⟩) ∧
        (∀ t, Task.queryGet s i = some t →
          validate_object s (.strId idStr) ty = .okTask t)) ∧
      (ty = "goal" →
        (Goal.queryGet s i = none →
          validate_object s (.strId idStr) ty =
            .aborted ⟨404, .obj [("message", .str ("Object " ++ toString i ++ " not found"))]⟩) ∧
        (∀ g, Goal.queryGet s i = some g →
          validate_object s (.strId idStr) ty = .okGoal g))) := by
  constructor
  · intro hpi
    rcases hty with h | h <;> subst h
    · exact validate_task_invalid s _ hpi
    · exact validate_goal_invalid s _ hpi
  · intro i hpi
    constructor
    · intro h
      subst h
      exact ⟨fun hq => validate_task_notFound s _ i hpi hq,
             fun t hq => validate_task_found s _ i t hpi hq⟩
    · intro h
      subst h
      exact ⟨fun hq => validate_goal_notFound s _ i hpi hq,
             fun g hq => validate_goal_found s _ i g hpi hq⟩

/-- Witness for C2 on the concrete store: a non-numeric id gives 400, a
missing numeric id gives 404, a present id returns the stored goal. -/
theorem validate_object_resolver_spec_witness :
    validate_object exStore (.strId "abc") "task" =
      .aborted ⟨400, .obj [("message", .str ("Object " ++ "abc" ++ " invalid"))]⟩ ∧
    validate_object exStore (.strId "99") "task" =
      .aborted ⟨404, .obj [("message", .str ("Object " ++ toString (99 : Int) ++ " not found"))]⟩ ∧
    validate_object exStore (.strId "1") "goal" = .okGoal ⟨1, "Errands"⟩ :=
  ⟨(validate_object_resolver_spec exStore "abc" "task" (.inl rfl)).1 rfl,
   (((validate_object_resolver_spec exStore "99" "task" (.inl rfl)).2 99 rfl).1 rfl).1 rfl,
   (((validate_object_resolver_spec exStore "1" "goal" (.inr rfl)).2 1 rfl).2 rfl).2 ⟨1, "Errands"⟩ rfl⟩

/-- C10: every call of `validate_object` in the routes module passes the tag
"task" or "goal", and with such a tag the resolver never reaches the branch
in which `goal_or_task` is unassigned: it always returns an entity or an
abort response. -/
theorem validate_object_total_at_call_sites :
    (∀ k ∈ validateCallSiteTags, k = "task" ∨ k = "goal") ∧
    (∀ (s : Store) (oid : IdVal) (k : String), (k = "task" ∨ k = "goal") →
      validate_object s oid k ≠ .nameError) := by
  constructor
  · decide
  · intro s oid k hk
    rcases hk with h | h <;> subst h
    · rcases validate_task_cases s oid with ⟨t, h2⟩ | ⟨r, h2, _⟩ <;> simp [h2]
    · rcases validate_goal_cases s oid with ⟨g, h2⟩ | ⟨r, h2, _⟩ <;> simp [h2]

/-- Witness for C10: the resolver applied with the "task" tag on the
concrete store does not hit the unassigned-variable branch. -/
theorem validate_object_total_at_call_sites_witness :
    validate_object exStore (.strId "1") "task" ≠ .nameError :=
  validate_object_total_at_call_sites.2 exStore (.strId "1") "task" (.inl rfl)

/-- C3 (recording the code defect): `POST /goals/1/tasks` with an existing
goal and a JSON body lacking `task_ids` raises an uncaught `KeyError` (the
guard catches only `ValueError`), so the request crashes with a 500 instead
of returning the 400 `ValidationError` the spec requires; nothing is
persisted either way. -/
theorem post_tasks_to_goal_missing_ids_crashes :
    post_tasks_to_goal exStore "1" ⟨none⟩ = .crash exStore ∧
    (post_tasks_to_goal exStore "1" ⟨none⟩).status = 500 ∧
    (post_tasks_to_goal exStore "1" ⟨none⟩).store = exStore :=
  ⟨rfl, rfl, rfl⟩

/-- C9: the mark-complete and mark-incomplete handlers read the request body
but never use it: for any two JSON bodies the outcome (response and store)
is identical, so the result depends only on the task id, the store, and the
timestamp. -/
theorem completion_handlers_ignore_body (s : Store) (now : Timestamp)
    (env : NotifierEnv) (tid : String) (b1 b2 : Json) :
    complete_task s now env tid b1 = complete_task s now env tid b2 ∧
    incomplete_task s tid b1 = incomplete_task s tid b2 :=
  ⟨rfl, rfl⟩

/-- If some element of `task_ids` is unparseable or matches no stored task,
the resolving comprehension ends in an abort with status 400 or 404. -/
theorem validateTaskList_bad (s : Store) (ids : List IdVal)
    (hbad : ∃ x ∈ ids, pyInt x = none ∨ ∀ i, pyInt x = some i → Task.queryGet s i = none) :
    ∃ r, validateTaskList s ids = .failed r ∧ (r.status = 400 ∨ r.status = 404) := by
  induction ids with
  | nil => rcases hbad with ⟨x, hx, _⟩; cases hx
  | cons y ys ih =>
    rcases validate_task_cases s y with ⟨t, hy⟩ | ⟨r, hy, hr⟩
    · have hbad2 : ∃ x ∈ ys,
          pyInt x = none ∨ ∀ i, pyInt x = some i → Task.queryGet s i = none := by
        rcases hbad with ⟨x, hx, hxbad⟩
        rcases List.mem_cons.mp hx with rfl | hx2
        · rcases validate_task_ok_inv s x t hy with ⟨i, hpi, hq⟩
          rcases hxbad with hb | hb
          · rw [hb] at hpi; cases hpi
          · rw [hb i hpi] at hq; cases hq
        · exact ⟨x, hx2, hxbad⟩
      rcases ih hbad2 with ⟨r, hr2, hst⟩
      exact ⟨r, by simp [validateTaskList, hy, hr2], hst⟩
    · exact ⟨r, by simp [validateTaskList, hy], hr⟩

/-- C1: a goal-linking request whose `task_ids` list contains an identifier
that is non-numeric or matches no stored task is rejected as a whole with a
400 or 404 response, and the store after the request is exactly the store
before it: no task's `goal_id` (nor anything else) changes. -/
theorem post_tasks_to_goal_rejects_atomically (s : Store) (gid : String) (ids : List IdVal)
    (hbad : ∃ x ∈ ids, pyInt x = none ∨ ∀ i, pyInt x = some i → Task.queryGet s i = none) :
    ∃ st body, post_tasks_to_goal s gid ⟨some ids⟩ = .resp st body s ∧
      (st = 400 ∨ st = 404) := by
  rcases validate_goal_cases s (.strId gid) with ⟨g, hg⟩ | ⟨r, hg, hr⟩
  · rcases validateTaskList_bad s ids hbad with ⟨r, hrr, hst⟩
    exact ⟨r.status, r.body, by simp [post_tasks_to_goal, hg, hrr], hst⟩
  · exact ⟨r.status, r.body, by simp [post_tasks_to_goal, hg], hr⟩

/-- Witness for C1: linking tasks "1" (existing) and "abc" (non-numeric) to
goal 1 is rejected and leaves the concrete store untouched. -/
theorem post_tasks_to_goal_rejects_atomically_witness :
    ∃ st body, post_tasks_to_goal exStore "1" ⟨some [.strId "1", .strId "abc"]⟩ =
      .resp st body exStore ∧ (st = 400 ∨ st = 404) :=
  post_tasks_to_goal_rejects_atomically exStore "1" [.strId "1", .strId "abc"]
    ⟨.strId "abc", by simp, .inl rfl⟩

/-- Counterexample to C4 as stated: with an existing task and a notifier
environment whose `requests.post` raises a transport exception, the
mark-complete request does not return the 200 success response — the
uncaught exception surfaces as a 500 — although the completion was already
committed. -/
theorem complete_task_transport_error_surfaces :
    complete_task exStore 5 exEnvRaise "1" .null =
      .crash (exStore.updateTask 1 (fun u => { u with completed_at := some 5 })) ∧
    (complete_task exStore 5 exEnvRaise "1" .null).status = 500 :=
  ⟨rfl, rfl⟩

/-- C4 amended: on an existing task, whenever the outbound call yields a
response — of any HTTP status, failing ones and the absent-`SLACK_TOKEN`
case included — the failure is not surfaced: the handler returns 200 with
the serialized completed task; and in every environment, transport
exceptions included, the persisted completion state is the committed one,
unaffected by the notification outcome, because the commit precedes the
call. Only a raised transport exception reaches the client (as a 500). -/
theorem complete_task_notifier_isolated (s : Store) (now : Timestamp)
    (tid : String) (body : Json) (t : Task)
    (h : validate_object s (.strId tid) "task" = .okTask t) :
    (∀ (env : NotifierEnv) (st : Nat), post_to_slack env t.title = .response st →
      complete_task s now env tid body =
        .resp 200 (.obj [("task", Task.to_dict { t with completed_at := some now })])
          (s.updateTask t.task_id (fun u => { u with completed_at := some now }))) ∧
    (∀ env : NotifierEnv,
      (complete_task s now env tid body).store =
        s.updateTask t.task_id (fun u => { u with completed_at := some now })) := by
  constructor
  · intro env st hpost
    simp [complete_task, h, hpost]
  · intro env
    cases hpost : post_to_slack env t.title <;>
      simp [complete_task, h, hpost, Outcome.store]

/-- Witness for C4 (amended): completing task 1 of the concrete store under
no token and a webhook answering 404 still returns 200, and even under a
raising webhook the committed store is the completed one. -/
theorem complete_task_notifier_isolated_witness :
    complete_task exStore 5 exEnv "1" .null =
      .resp 200 (.obj [("task", Task.to_dict ⟨1, "Buy milk", "2%", some 5, none⟩)])
        (exStore.updateTask 1 (fun u => { u with completed_at := some 5 })) ∧
    (complete_task exStore 5 exEnvRaise "1" .null).store =
      exStore.updateTask 1 (fun u => { u with completed_at := some 5 }) :=
  ⟨(complete_task_notifier_isolated exStore 5 "1" .null
      ⟨1, "Buy milk", "2%", none, none⟩ rfl).1 exEnv 404 rfl,
   (complete_task_notifier_isolated exStore 5 "1" .null
      ⟨1, "Buy milk", "2%", none, none⟩ rfl).2 exEnvRaise⟩

/-- C5: task creation with both `title` and `description` persists the new
task and returns 201, with `is_complete` false in the serialization when no
`completed_at` was supplied; a body missing either field returns the 400
"Invalid data" response and leaves the store exactly as it was. -/
theorem post_task_spec (s : Store) (body : TaskBody) :
    (∀ ti de, body.title = some ti → body.description = some de →
      post_task s body =
        .resp 201 (.obj [("task", Task.to_dict
            ⟨s.next_task_id, ti, de, body.completed_at.getD none, none⟩)])
          { s with
            tasks := s.tasks ++ [⟨s.next_task_id, ti, de, body.completed_at.getD none, none⟩],
            next_task_id := s.next_task_id + 1 } ∧
      (body.completed_at = none →
        (Task.to_dict ⟨s.next_task_id, ti, de, body.completed_at.getD none, none⟩).getKey
          "is_complete" = some (.bool false))) ∧
    (body.title = none ∨ body.description = none →
      post_task s body = .resp 400 (.obj [("details", .str "Invalid data")]) s) := by
  constructor
  · intro ti de hti hde
    constructor
    · simp [post_task, hti, hde]
    · intro hca
      rw [hca]
      rfl
  · rintro (h | h)
    · simp [post_task, h]
    · cases hti : body.title <;> simp [post_task, hti, h]

/-- Witness for C5: a valid creation on the concrete store returns 201 with
`is_complete` false, and a creation missing `title` returns 400 leaving the
store unchanged. -/
theorem post_task_spec_witness :
    post_task exStore ⟨some "A", some "B", none⟩ =
      .resp 201 (.obj [("task", Task.to_dict ⟨3, "A", "B", none, none⟩)])
        { exStore with tasks := exStore.tasks ++ [⟨3, "A", "B", none, none⟩],
                       next_task_id := 4 } ∧
    (Task.to_dict ⟨3, "A", "B", none, none⟩).getKey "is_complete" = some (.bool false) ∧
    post_task exStore ⟨none, some "B", none⟩ =
      .resp 400 (.obj [("details", .str "Invalid data")]) exStore :=
  ⟨((post_task_spec exStore ⟨some "A", some "B", none⟩).1 "A" "B" rfl rfl).1,
   ((post_task_spec exStore ⟨some "A", some "B", none⟩).1 "A" "B" rfl rfl).2 rfl,
   (post_task_spec exStore ⟨none, some "B", none⟩).2 (.inl rfl)⟩

/-- C8: deleting an existing goal (here one with at least one associated
task) removes only the goal record: the task table — every task with all its
fields, `title`, `description`, `completed_at` included — and the id
counters are untouched. -/
theorem delete_goal_frame (s : Store) (gidStr : String) (g : Goal)
    (hg : validate_object s (.strId gidStr) "goal" = .okGoal g)
    (hne : ∃ t ∈ s.tasks, t.goal_id = some (g.goal_id : Int)) :
    delete_goal s gidStr =
      .resp 200 (.obj [("details", .str ("Goal " ++ toString g.goal_id ++ " \"" ++
          g.title ++ "\" successfully deleted"))])
        { s with goals := s.goals.filter (fun x => x.goal_id != g.goal_id) } ∧
    (delete_goal s gidStr).store.tasks = s.tasks ∧
    (delete_goal s gidStr).store.next_task_id = s.next_task_id := by
  have h1 : delete_goal s gidStr =
      .resp 200 (.obj [("details", .str ("Goal " ++ toString g.goal_id ++ " \"" ++
          g.title ++ "\" successfully deleted"))])
        { s with goals := s.goals.filter (fun x => x.goal_id != g.goal_id) } := by
    simp [delete_goal, hg]
  exact ⟨h1, by rw [h1]; rfl, by rw [h1]; rfl⟩

/-- Witness for C8: deleting goal 1 of the concrete store (task 2 is linked
to it) leaves both tasks, with all their fields, in place. -/
theorem delete_goal_frame_witness :
    delete_goal exStore "1" =
      .resp 200 (.obj [("details", .str ("Goal " ++ toString (1 : Nat) ++ " \"" ++
          "Errands" ++ "\" successfully deleted"))])
        { exStore with goals := exStore.goals.filter (fun x => x.goal_id != 1) } ∧
    (delete_goal exStore "1").store.tasks = exStore.tasks ∧
    (delete_goal exStore "1").store.next_task_id = exStore.next_task_id :=
  delete_goal_frame exStore "1" ⟨1, "Errands"⟩ rfl
    ⟨⟨2, "Walk dog", "am", some 7, some 1⟩, by simp [exStore], rfl⟩

/-- C6: with sort token "asc" the list queries return entities whose titles
are lexicographically non-decreasing, with "desc" non-increasing; with an
absent or any other token they return the store's insertion order; and the
list endpoints hand back the store unchanged. -/
theorem list_endpoints_sort_spec (s : Store) :
    List.Sorted (· ≤ ·) ((ordered_tasks_query s (some "asc")).map Task.title) ∧
    List.Sorted (fun a b : String => b ≤ a)
      ((ordered_tasks_query s (some "desc")).map Task.title) ∧
    List.Sorted (· ≤ ·) ((ordered_goals_query s (some "asc")).map Goal.title) ∧
    List.Sorted (fun a b : String => b ≤ a)
      ((ordered_goals_query s (some "desc")).map Goal.title) ∧
    (∀ m, m ≠ some "asc" → m ≠ some "desc" →
      ordered_tasks_query s m = s.tasks ∧ ordered_goals_query s m = s.goals) ∧
    (∀ m, (get_tasks s m).store = s ∧ (get_goals s m).store = s) := by
  refine ⟨?_, ?_, ?_, ?_, ?_, fun m => ⟨rfl, rfl⟩⟩
  · exact List.Pairwise.map _ (fun a b hab => hab)
      (List.sorted_insertionSort (fun a b : Task => a.title ≤ b.title) s.tasks)
  · exact List.Pairwise.map _ (fun a b hab => hab)
      (List.sorted_insertionSort (fun a b : Task => b.title ≤ a.title) s.tasks)
  · exact List.Pairwise.map _ (fun a b hab => hab)
      (List.sorted_insertionSort (fun a b : Goal => a.title ≤ b.title) s.goals)
  · exact List.Pairwise.map _ (fun a b hab => hab)
      (List.sorted_insertionSort (fun a b : Goal => b.title ≤ a.title) s.goals)
  · intro m h1 h2
    have e1 : (m == some "asc") = false := beq_eq_false_iff_ne.mpr h1
    have e2 : (m == some "desc") = false := beq_eq_false_iff_ne.mpr h2
    exact ⟨by simp [ordered_tasks_query, e1, e2], by simp [ordered_goals_query, e1, e2]⟩

/-- Witness for C6: an unrecognized sort token returns the concrete store's
tasks and goals in insertion order. -/
theorem list_endpoints_sort_spec_witness :
    ordered_tasks_query exStore (some "title") = exStore.tasks ∧
    ordered_goals_query exStore (some "title") = exStore.goals :=
  (list_endpoints_sort_spec exStore).2.2.2.2.1 (some "title") (by decide) (by decide)

/-- Fetching by primary key in a store whose tasks were updated pointwise by
an id-preserving function. -/
theorem queryGet_updateTask (s : Store) (j : Nat) (f : Task → Task)
    (hf : ∀ u, (f u).task_id = u.task_id) (i : Int) :
    Task.queryGet (s.updateTask j f) i =
      (Task.queryGet s i).map (fun u => if u.task_id == j then f u else u) := by
  unfold Task.queryGet Store.updateTask
  rw [List.find?_map]
  have hp : ((fun t : Task => ((t.task_id : Int) == i)) ∘
      (fun u => if u.task_id == j then f u else u)) =
      (fun t : Task => ((t.task_id : Int) == i)) := by
    funext u
    by_cases h : u.task_id = j <;> simp [Function.comp, h, hf]
  rw [hp]

/-- Resolving a task id still succeeds, on the updated record, after an
id-preserving per-id update of the store. -/
theorem validate_task_in_updateTask (s : Store) (tid : String) (t : Task) (j : Nat)
    (f : Task → Task) (hf : ∀ u, (f u).task_id = u.task_id)
    (h : validate_object s (.strId tid) "task" = .okTask t) :
    validate_object (s.updateTask j f) (.strId tid) "task" =
      .okTask (if t.task_id == j then f t else t) := by
  rcases validate_task_ok_inv s _ t h with ⟨i, hpi, hq⟩
  refine validate_task_found _ _ i _ hpi ?_
  rw [queryGet_updateTask s j f hf i, hq]
  rfl

/-- Two pointwise updates at the same key collapse to their composition. -/
theorem updateTask_updateTask (s : Store) (j : Nat) (f g : Task → Task)
    (hf : ∀ u, (f u).task_id = u.task_id) :
    (s.updateTask j f).updateTask j g = s.updateTask j (fun u => g (f u)) := by
  unfold Store.updateTask
  simp only [List.map_map]
  have hcomp : ((fun u : Task => if u.task_id == j then g u else u) ∘
      (fun u : Task => if u.task_id == j then f u else u)) =
      (fun u : Task => if u.task_id == j then g (f u) else u) := by
    funext u
    by_cases h : u.task_id = j
    · simp [Function.comp, h, hf]
    · simp [Function.comp, h]
  rw [hcomp]

/-- The store left by mark-complete followed by mark-incomplete on an
existing task: that task's `completed_at` cleared, everything else as
before. -/
theorem markPair_eq (s : Store) (now : Timestamp) (env : NotifierEnv) (tid : String)
    (body : Json) (t : Task)
    (h : validate_object s (.strId tid) "task" = .okTask t) :
    markPair s now env tid body =
      s.updateTask t.task_id (fun u => { u with completed_at := none }) := by
  have h1 : (complete_task s now env tid body).store =
      s.updateTask t.task_id (fun u => { u with completed_at := some now }) := by
    cases hpost : post_to_slack env t.title <;>
      simp [complete_task, h, hpost, Outcome.store]
  have h2 : validate_object
      (s.updateTask t.task_id (fun u => { u with completed_at := some now }))
      (.strId tid) "task" = .okTask { t with completed_at := some now } := by
    have h3 := validate_task_in_updateTask s tid t t.task_id
      (fun u => { u with completed_at := some now }) (fun u => rfl) h
    simpa using h3
  unfold markPair
  rw [h1]
  have h4 : incomplete_task
      (s.updateTask t.task_id (fun u => { u with completed_at := some now })) tid body =
      .resp 200 (.obj [("task", Task.to_dict { t with completed_at := none })])
        ((s.updateTask t.task_id (fun u => { u with completed_at := some now })).updateTask
          t.task_id (fun u => { u with completed_at := none })) := by
    simp [incomplete_task, h2]
  rw [h4]
  show (s.updateTask t.task_id (fun u => { u with completed_at := some now })).updateTask
      t.task_id (fun u => { u with completed_at := none }) =
    s.updateTask t.task_id (fun u => { u with completed_at := none })
  exact updateTask_updateTask s t.task_id _ _ (fun u => rfl)

/-- C7: on an existing task, mark-complete then mark-incomplete returns the
200 response whose serialization has `completed_at` cleared and
`is_complete` false, and the composed pair is idempotent on the store: one
more pair — indeed any number of repetitions, with any timestamps, notifier
environments and bodies — leaves the same end state. -/
theorem mark_complete_incomplete_pair (s : Store) (now : Timestamp) (env : NotifierEnv)
    (tid : String) (body : Json) (t : Task)
    (h : validate_object s (.strId tid) "task" = .okTask t) :
    incomplete_task ((complete_task s now env tid body).store) tid body =
      .resp 200 (.obj [("task", Task.to_dict { t with completed_at := none })])
        (markPair s now env tid body) ∧
    (Task.to_dict { t with completed_at := none }).getKey "is_complete" =
      some (.bool false) ∧
    (∀ now2 env2 body2, markPair (markPair s now env tid body) now2 env2 tid body2 =
      markPair s now env tid body) ∧
    (∀ n now2 env2 body2, (fun st => markPair st now2 env2 tid body2)^[n]
        (markPair s now env tid body) = markPair s now env tid body) := by
  have h1 : (complete_task s now env tid body).store =
      s.updateTask t.task_id (fun u => { u with completed_at := some now }) := by
    cases hpost : post_to_slack env t.title <;>
      simp [complete_task, h, hpost, Outcome.store]
  have h2 : validate_object
      (s.updateTask t.task_id (fun u => { u with completed_at := some now }))
      (.strId tid) "task" = .okTask { t with completed_at := some now } := by
    have h3 := validate_task_in_updateTask s tid t t.task_id
      (fun u => { u with completed_at := some now }) (fun u => rfl) h
    simpa using h3
  have hmp := markPair_eq s now env tid body t h
  have hclr : validate_object
      (s.updateTask t.task_id (fun u => { u with completed_at := none }))
      (.strId tid) "task" = .okTask { t with completed_at := none } := by
    have h3 := validate_task_in_updateTask s tid t t.task_id
      (fun u => { u with completed_at := none }) (fun u => rfl) h
    simpa using h3
  have hidem : ∀ now2 env2 body2,
      markPair (markPair s now env tid body) now2 env2 tid body2 =
        markPair s now env tid body := by
    intro now2 env2 body2
    rw [hmp]
    have h5 := markPair_eq (s.updateTask t.task_id (fun u => { u with completed_at := none }))
      now2 env2 tid body2 { t with completed_at := none } hclr
    rw [h5]
    exact updateTask_updateTask s t.task_id _ _ (fun u => rfl)
  refine ⟨?_, rfl, hidem, ?_⟩
  · rw [h1]
    have h4 : incomplete_task
        (s.updateTask t.task_id (fun u => { u with completed_at := some now })) tid body =
        .resp 200 (.obj [("task", Task.to_dict { t with completed_at := none })])
          ((s.updateTask t.task_id (fun u => { u with completed_at := some now })).updateTask
            t.task_id (fun u => { u with completed_at := none })) := by
      simp [incomplete_task, h2]
    rw [h4, hmp]
    have h6 := updateTask_updateTask s t.task_id
      (fun u => { u with completed_at := some now })
      (fun u => { u with completed_at := none }) (fun u => rfl)
    rw [h6]
  · intro n now2 env2 body2
    induction n with
    | zero => rfl
    | succ k ih => rw [Function.iterate_succ_apply, hidem now2 env2 body2, ih]

/-- Witness for C7 on the concrete store: the pair on task 1 returns 200
with `completed_at` cleared, and a second pair changes nothing. -/
theorem mark_complete_incomplete_pair_witness :
    incomplete_task ((complete_task exStore 5 exEnv "1" .null).store) "1" .null =
      .resp 200 (.obj [("task", Task.to_dict ⟨1, "Buy milk", "2%", none, none⟩)])
        (markPair exStore 5 exEnv "1" .null) ∧
    markPair (markPair exStore 5 exEnv "1" .null) 9 exEnv "1" .null =
      markPair exStore 5 exEnv "1" .null :=
  ⟨(mark_complete_incomplete_pair exStore 5 exEnv "1" .null
      ⟨1, "Buy milk", "2%", none, none⟩ rfl).1,
   (mark_complete_incomplete_pair exStore 5 exEnv "1" .null
      ⟨1, "Buy milk", "2%", none, none⟩ rfl).2.2.1 9 exEnv .null⟩

end TaskListApi
